import Mathlib

/-!
Verification of `src/main.py` (a Google-Sheets-to-BigQuery import pipeline)
against its natural-language specification.  The Python source is shallowly
embedded below: pure helpers become Lean functions, and the effectful
pipeline becomes a function from an explicit environment (file system,
remote lookup results, clock) to a run result together with a trace of the
remote/file-system events it performs, in program order.
-/

namespace SheetsToBq

/-!
Embedding of the CSV staging writer (`_write_to_tmp` in `src/main.py`):
Python `csv.writer` with `quoting=QUOTE_ALL`, `escapechar` the backslash,
`quotechar` the double quote, and the default dialect settings otherwise
(comma delimiter, `doublequote=True`, CRLF line terminator).  With
`doublequote=True` a quote character inside a field is doubled and the
escape character escapes itself; with `QUOTE_ALL` every field is quoted.
Cells are modelled as lists of characters.
-/

abbrev Cell := List Char
abbrev Row := List Cell
abbrev Grid := List Row

/-- Rendering of one character of a field by the writer: the quote
character is doubled, the escape character escapes itself, every other
character is emitted verbatim. -/
def escapeChar (c : Char) : List Char :=
  if c = '"' then ['"', '"']
  else if c = '\\' then ['\\', '\\']
  else [c]

/-- Rendering of a whole field body: each character rendered in order. -/
def escapeStr : Cell → List Char
  | [] => []
  | c :: cs => escapeChar c ++ escapeStr cs

/-- QUOTE_ALL: every field is wrapped in double quotes. -/
def encodeField (s : Cell) : List Char := '"' :: escapeStr s ++ ['"']

/-- One record: fields joined by commas, terminated by CRLF. -/
def encodeRecord : Row → List Char
  | [] => ['\r', '\n']
  | [f] => encodeField f ++ ['\r', '\n']
  | f :: fs => encodeField f ++ ',' :: encodeRecord fs

/-- The writer call `csv.writer(out_file, ...).writerows(values)`: records
concatenated in order, no header row added. -/
def writerows : Grid → List Char
  | [] => []
  | r :: rs => encodeRecord r ++ writerows rs

/-!
A reader for the same dialect (quote/escape rules as above), as a
character-at-a-time state machine.
-/

inductive Mode
  | recStart    -- at the start of a record
  | recStartCR  -- saw CR at the start of a record (empty record)
  | inField     -- inside a quoted field
  | fieldEsc    -- inside a quoted field, after the escape character
  | fieldQuote  -- inside a quoted field, after a quote character
  | afterComma  -- after a field separator, expecting the next field
  | afterCR     -- after the closing quote and CR, expecting LF
deriving DecidableEq, Repr

structure PState where
  mode : Mode
  cur : Cell
  row : Row
  grid : Grid
deriving DecidableEq, Repr

/-- One step of the reader. -/
def csvStep (st : PState) (c : Char) : Option PState :=
  match st.mode with
  | .recStart =>
    if c = '"' then some { st with mode := .inField }
    else if c = '\r' then some { st with mode := .recStartCR }
    else none
  | .recStartCR =>
    if c = '\n' then
      some { mode := .recStart, cur := [], row := [], grid := st.grid ++ [st.row] }
    else none
  | .inField =>
    if c = '\\' then some { st with mode := .fieldEsc }
    else if c = '"' then some { st with mode := .fieldQuote }
    else some { st with cur := st.cur ++ [c] }
  | .fieldEsc => some { st with mode := .inField, cur := st.cur ++ [c] }
  | .fieldQuote =>
    if c = '"' then some { st with mode := .inField, cur := st.cur ++ ['"'] }
    else if c = ',' then
      some { st with mode := .afterComma, cur := [], row := st.row ++ [st.cur] }
    else if c = '\r' then
      some { st with mode := .afterCR, cur := [], row := st.row ++ [st.cur] }
    else none
  | .afterComma =>
    if c = '"' then some { st with mode := .inField }
    else none
  | .afterCR =>
    if c = '\n' then
      some { mode := .recStart, cur := [], row := [], grid := st.grid ++ [st.row] }
    else none

/-- Run the reader over a character list. -/
def runCSV : List Char → PState → Option PState
  | [], st => some st
  | c :: cs, st =>
    match csvStep st c with
    | some st2 => runCSV cs st2
    | none => none

/-- Parse a full staged text: accept only when the reader ends at a record
boundary. -/
def parseCSV (s : List Char) : Option Grid :=
  match runCSV s { mode := .recStart, cur := [], row := [], grid := [] } with
  | some st => if st.mode = .recStart then some st.grid else none
  | none => none

/-!
Embedding of the credential store, the warehouse loader and the pipeline
orchestrator.  Each effectful function returns its value together with the
list of remote/file-system events it performs, in program order.
-/

/-- Authorization credential object: validity flag, expiry flag, optional
token value.  A credential object is truthy in Python; only a null is
falsy. -/
structure Creds where
  valid : Bool
  expired : Bool
  token : Option String
deriving DecidableEq, Repr

/-- Contents of a service-account key file. -/
abbrev KeyFile := String

/-- Outcome of a remote get-dataset / get-table call, as discriminated by
the except clauses in the source: success, `exceptions.Forbidden`, or
`exceptions.NotFound`. -/
inductive Lookup
  | found
  | forbidden
  | notFound
deriving DecidableEq, Repr

/-- The namedtuple `Sheet = ('name', 'id')`. -/
structure Sheet where
  name : String
  id : String
deriving DecidableEq, Repr

/-- A clock reading, down to seconds. -/
structure DateTime where
  year : Nat
  month : Nat
  day : Nat
  hour : Nat
  minute : Nat
  second : Nat
deriving DecidableEq, Repr

/-- The fixed load-job parameters built in `_load_data`. -/
structure LoadJobConfig where
  source_format : String
  skip_leading_rows : Nat
  write_disposition : String
  autodetect : Bool
deriving DecidableEq, Repr

def load_job_config : LoadJobConfig :=
  { source_format := "CSV",
    skip_leading_rows := 1,
    write_disposition := "WRITE_TRUNCATE",
    autodetect := true }

/-- The remote and file-system effects of one run, in program order. -/
inductive Event
  | getBlob                                         -- bucket.get_blob (remote key storage)
  | downloadBlob (path : String)                    -- blob.download_to_filename
  | refreshToken                                    -- creds.refresh(Request())
  | getDataset (name : String)                      -- bq_client.get_dataset
  | createDataset (name : String)                   -- bq_client.create_dataset
  | getTable (fullName : String)                    -- bq_client.get_table
  | createTable (fullName : String)                 -- bq_client.create_table
  | readClock                                       -- datetime.datetime.now()
  | listDriveFiles                                  -- drive.files().list().execute()
  | fetchValues (sheetId : String)                  -- sheets.values().get(...).execute()
  | writeTmp (path : String) (content : List Char)  -- _write_to_tmp
  | loadTable (fullName : String) (path : String) (cfg : LoadJobConfig)  -- _load_data
  | deleteTmp (path : String)                       -- os.remove
  | saveToken                                       -- _save_creds
deriving DecidableEq, Repr

/-- One run's environment: local scratch-file state, the behavior of the
remote collaborators, and the clock. -/
structure Env where
  /-- `token.pickle`: `none` when the file does not exist; `some v` when it
  exists and unpickles to `v` (`v = none` models a pickled null value). -/
  tokenCache : Option (Option Creds)
  /-- Outcome of `creds.refresh(Request())`: the refreshed credential, or a
  raised error. -/
  refresh : Creds → Except String Creds
  /-- The remote key blob `credentials.json` in bucket `sheets_to_bq`:
  `none` when `bucket.get_blob` yields nothing. -/
  remoteBlob : Option KeyFile
  /-- Pre-existing local scratch `credentials.json`, if any. -/
  localKeyFile : Option KeyFile
  /-- `service_account.Credentials.from_service_account_file`: the
  credential built from a key file and a scope list. -/
  fromKey : KeyFile → List String → Creds
  /-- Result of `bq_client.get_dataset(name)`. -/
  datasetLookup : String → Lookup
  /-- Result of `bq_client.get_table(full_name)`. -/
  tableLookup : String → Lookup
  /-- The spreadsheet files shared with the identity. -/
  sharedFiles : List Sheet
  /-- The grid of cell values for a document id. -/
  sheetValues : String → List (List String)
  /-- The clock at the single `datetime.datetime.now()` call. -/
  now : DateTime

/-- The four fixed permission scopes. -/
def SCOPES : List String :=
  ["https://www.googleapis.com/auth/drive",
   "https://www.googleapis.com/auth/spreadsheets.readonly",
   "https://www.googleapis.com/auth/bigquery",
   "https://www.googleapis.com/auth/bigquery.insertdata"]

def CREDENTIALS_FILENAME : String := "credentials.json"
def TOKEN_FILENAME : String := "token.pickle"
def BQ_DATASET : String := "sheets_to_bq"
def SHEET_NAME : String := "capacity-plan"

/-- `tempfile.gettempdir()`, fixed for this embedding. -/
def tmpdir : String := "/tmp"

/-- `_generate_filepath`. -/
def generate_filepath (name : String) : String := tmpdir ++ "/" ++ name

/-- `_check_creds`: load the cached token if the cache file exists; if a
credential object was loaded but is not valid, refresh it in place when it
is expired; return whatever credential (or null) resulted.  A raised
refresh error propagates uncaught. -/
def check_creds (env : Env) : (Except String (Option Creds)) × List Event :=
  let creds : Option Creds :=
    match env.tokenCache with
    | some v => v
    | none => none
  match creds with
  | none => (.ok none, [])
  | some c =>
    if !c.valid then
      if c.expired then
        match env.refresh c with
        | .ok c2 => (.ok (some c2), [.refreshToken])
        | .error e => (.error e, [.refreshToken])
      else (.ok (some c), [])
    else (.ok (some c), [])

/-- `_get_credentials_json`: look up the remote key blob and, when it is
present, download it over the local scratch key file.  Returns the local
key-file state afterwards, with the remote-storage events. -/
def get_credentials_json (env : Env) : Option KeyFile × List Event :=
  match env.remoteBlob with
  | some k => (some k, [.getBlob, .downloadBlob (generate_filepath CREDENTIALS_FILENAME)])
  | none => (env.localKeyFile, [.getBlob])

/-- `_fetch_creds`: download the key file, then build a credential from it
scoped to the four fixed scopes; a missing key file (`FileNotFoundError`)
is logged and yields a null credential. -/
def fetch_creds (env : Env) : Option Creds × List Event :=
  match get_credentials_json env with
  | (some k, evs) => (some (env.fromKey k SCOPES), evs)
  | (none, evs) => (none, evs)

/-- Line 226 of the source: `_check_creds(...) or _fetch_creds(...)` with
Python short-circuit `or` (a credential object is truthy, null is falsy). -/
def acquire_creds (env : Env) : (Except String (Option Creds)) × List Event :=
  match check_creds env with
  | (.error e, evs) => (.error e, evs)
  | (.ok (some c), evs) => (.ok (some c), evs)
  | (.ok none, evs) =>
    match fetch_creds env with
    | (r, evs2) => (.ok r, evs ++ evs2)

/-- `_get_bq_dataset`: get the dataset; on `Forbidden` log the error and
fall through with a null handle; on `NotFound` log and create it.  The
returned handle carries the dataset id. -/
def get_bq_dataset (env : Env) (dataset_name : String) : Option String × List Event :=
  match env.datasetLookup dataset_name with
  | .found => (some dataset_name, [.getDataset dataset_name])
  | .forbidden => (none, [.getDataset dataset_name])
  | .notFound => (some dataset_name, [.getDataset dataset_name, .createDataset dataset_name])

/-- Embedding of the Python expression replacing every hyphen in
`table_name` by an underscore (line 175 of the source). -/
def pyReplaceHyphen (s : String) : String :=
  String.mk (s.data.map (fun c => if c = '-' then '_' else c))

/-- The `dataset.table` name built in `_get_bq_table` after normalization. -/
def fullTableName (dataset_name table_name : String) : String :=
  dataset_name ++ "." ++ pyReplaceHyphen table_name

/-- `_get_bq_table`: replace hyphens by underscores in the requested table
name, then get the table; on `Forbidden` log the error and fall through
with a null handle; on `NotFound` log and create it. -/
def get_bq_table (env : Env) (dataset_name table_name : String) : Option String × List Event :=
  let full := fullTableName dataset_name table_name
  match env.tableLookup full with
  | .found => (some full, [.getTable full])
  | .forbidden => (none, [.getTable full])
  | .notFound => (some full, [.getTable full, .createTable full])

/-- Uncaught Python exceptions the pipeline can raise. -/
inductive Fault
  | refreshError (msg : String)   -- creds.refresh raised
  | noneDataset                   -- AttributeError: null handle .dataset_id
  | noneTable                     -- load_table_from_file given a null table
deriving DecidableEq, Repr

/-- The staged text `_write_to_tmp` produces for fetched values. -/
def stageGrid (values : List (List String)) : List Char :=
  writerows (values.map (fun r => r.map String.data))

def historyDatasetName : String := BQ_DATASET ++ "_history"

/-- `datetime.now().strftime` with the year-month-day-hour-minute format
string of line 241: zero-padded fields, minute granularity. -/
def pad2 (n : Nat) : String := if n < 10 then "0" ++ toString n else toString n

def pad4 (n : Nat) : String :=
  if n < 10 then "000" ++ toString n
  else if n < 100 then "00" ++ toString n
  else if n < 1000 then "0" ++ toString n
  else toString n

def strftimeYmdHM (t : DateTime) : String :=
  pad4 t.year ++ pad2 t.month ++ pad2 t.day ++ pad2 t.hour ++ pad2 t.minute

/-- `_fetch_and_load_data`: fetch the sheet values, stage them, ensure the
primary dataset and table and load the staged file, then ensure the
history dataset and the `{sheet}_{timestamp}` history table and load
again, then delete the staged file.  A null dataset handle faults at
`.dataset_id`; a null table handle faults inside the load call. -/
def fetch_and_load_data (env : Env) (sheet : Sheet) (timestamp : String) :
    List Event × Option Fault :=
  let filepath := generate_filepath (sheet.name ++ ".csv")
  let ev0 : List Event :=
    [.fetchValues sheet.id, .writeTmp filepath (stageGrid (env.sheetValues sheet.id))]
  match get_bq_dataset env BQ_DATASET with
  | (none, ev1) => (ev0 ++ ev1, some .noneDataset)
  | (some dsId, ev1) =>
    match get_bq_table env dsId sheet.name with
    | (none, ev2) => (ev0 ++ ev1 ++ ev2, some .noneTable)
    | (some tbl, ev2) =>
      let ev3 : List Event := [.loadTable tbl filepath load_job_config]
      match get_bq_dataset env historyDatasetName with
      | (none, ev4) => (ev0 ++ ev1 ++ ev2 ++ ev3 ++ ev4, some .noneDataset)
      | (some hdsId, ev4) =>
        match get_bq_table env hdsId (sheet.name ++ "_" ++ timestamp) with
        | (none, ev5) => (ev0 ++ ev1 ++ ev2 ++ ev3 ++ ev4 ++ ev5, some .noneTable)
        | (some htbl, ev5) =>
          (ev0 ++ ev1 ++ ev2 ++ ev3 ++ ev4 ++ ev5 ++
            [.loadTable htbl filepath load_job_config, .deleteTmp filepath], none)

/-- The per-document loop of `sheets_to_bq`; a raised fault stops the
iteration. -/
def process_sheets (env : Env) (sheets : List Sheet) (timestamp : String) :
    List Event × Option Fault :=
  match sheets with
  | [] => ([], none)
  | s :: rest =>
    match fetch_and_load_data env s timestamp with
    | (ev, some f) => (ev, some f)
    | (ev, none) =>
      match process_sheets env rest timestamp with
      | (ev2, f2) => (ev ++ ev2, f2)

/-- Python truthiness of `creds.token` (null and the empty string are
falsy). -/
def tokenTruthy : Option String → Bool
  | none => false
  | some t => t.length != 0

/-- Observable outcome of one invocation of `sheets_to_bq`. -/
inductive RunResult
  | done (msg : String)     -- normal return value
  | abort500                -- flask.abort(500): missing credential, request present
  | quitRun                 -- print and plain return: missing credential, no request
  | fault (f : Fault)       -- an uncaught exception
deriving DecidableEq, Repr

/-- `sheets_to_bq(request)`: acquire a credential (aborting the run when
none results), ensure the primary and history datasets, read the clock
once, enumerate shared documents, process each document with the single
run timestamp, then persist the token if it is truthy and return the fixed
success message.  `request` is the Python truthiness of the argument. -/
def sheets_to_bq (env : Env) (request : Bool) : RunResult × List Event :=
  match acquire_creds env with
  | (.error e, evA) => (.fault (.refreshError e), evA)
  | (.ok none, evA) =>
    if request then (.abort500, evA) else (.quitRun, evA)
  | (.ok (some creds), evA) =>
    match get_bq_dataset env BQ_DATASET with
    | (_, ev1) =>
      match get_bq_dataset env historyDatasetName with
      | (_, ev2) =>
        let timestamp := strftimeYmdHM env.now
        match process_sheets env env.sharedFiles timestamp with
        | (evDocs, some f) =>
          (.fault f,
           evA ++ ev1 ++ ev2 ++ [.readClock, .listDriveFiles] ++ evDocs)
        | (evDocs, none) =>
          let evSave : List Event := if tokenTruthy creds.token then [.saveToken] else []
          (.done "DONE: imported all sheets",
           evA ++ ev1 ++ ev2 ++ [.readClock, .listDriveFiles] ++ evDocs ++ evSave)

/-- The example grid of the specification. -/
def exampleGrid : Grid := [[['a'], ['b']], [['c', ',', 'd'], ['e', '"', 'f']]]

/-- Its staged rendering: two quoted, comma-separated records; the
embedded quote is doubled, the record terminator is CRLF. -/
def exampleStaged : List Char :=
  ['"', 'a', '"', ',', '"', 'b', '"', '\r', '\n',
   '"', 'c', ',', 'd', '"', ',', '"', 'e', '"', '"', 'f', '"', '\r', '\n']

/-- Recognizer for a load event into a given table with truncate-and-replace
disposition. -/
def isTruncLoadInto (t : String) : Event → Bool
  | .loadTable t2 _ cfg => t2 == t && (cfg.write_disposition == "WRITE_TRUNCATE")
  | _ => false

/-- A concrete environment: valid cached token, every remote lookup
succeeds, no shared documents. -/
def baseEnv : Env :=
  { tokenCache := some (some { valid := true, expired := false, token := some "tok" }),
    refresh := fun c => .ok c,
    remoteBlob := none,
    localKeyFile := none,
    fromKey := fun k _ => { valid := true, expired := false, token := some k },
    datasetLookup := fun _ => .found,
    tableLookup := fun _ => .found,
    sharedFiles := [],
    sheetValues := fun _ => [],
    now := { year := 2024, month := 1, day := 1, hour := 12, minute := 0, second := 0 } }

/-- One shared document named `capacity-plan`. -/
def envOneDoc : Env :=
  { baseEnv with sharedFiles := [{ name := SHEET_NAME, id := "doc1" }] }

/-- Two shared documents whose display names differ only in hyphen versus
underscore. -/
def envCollide : Env :=
  { baseEnv with sharedFiles := [{ name := "a-b", id := "id1" }, { name := "a_b", id := "id2" }] }

/-- Token cache present, holding a credential object that is not valid and
not expired. -/
def envInvalidTok : Env :=
  { baseEnv with tokenCache := some (some { valid := false, expired := false, token := none }) }

/-- No token cache, no remote key blob, no local key file. -/
def envNoCreds : Env :=
  { baseEnv with tokenCache := none }

/-- No token cache; the remote key blob is present. -/
def envFallback : Env :=
  { baseEnv with tokenCache := none, remoteBlob := some "keyfile-contents" }

/-- Cached credential present, not valid, expired; refreshing it raises. -/
def envRefreshErr : Env :=
  { baseEnv with
    tokenCache := some (some { valid := false, expired := true, token := none }),
    refresh := fun _ => .error "invalid_grant: Token has been revoked" }

/-- Every dataset and table lookup reports NotFound. -/
def envNotFound : Env :=
  { baseEnv with datasetLookup := fun _ => .notFound, tableLookup := fun _ => .notFound }

/-- Every dataset and table lookup reports Forbidden. -/
def envForbidden : Env :=
  { baseEnv with datasetLookup := fun _ => .forbidden, tableLookup := fun _ => .forbidden }

theorem runCSV_append (a b : List Char) (st : PState) :
    runCSV (a ++ b) st =
      match runCSV a st with
      | some st2 => runCSV b st2
      | none => none := by
  induction a generalizing st with
  | nil => simp [runCSV]
  | cons c cs ih =>
    simp only [List.cons_append, runCSV]
    cases csvStep st c with
    | none => rfl
    | some st2 => exact ih st2

theorem runCSV_escapeStr (f : Cell) (cur : Cell) (row : Row) (g : Grid) :
    runCSV (escapeStr f) { mode := .inField, cur := cur, row := row, grid := g } =
      some { mode := .inField, cur := cur ++ f, row := row, grid := g } := by
  induction f generalizing cur with
  | nil => simp [escapeStr, runCSV]
  | cons c cs ih =>
    by_cases hq : c = '"'
    · subst hq
      have h1 : escapeStr ('"' :: cs) = '"' :: '"' :: escapeStr cs := by
        simp [escapeStr, escapeChar]
      have h2 : runCSV ('"' :: '"' :: escapeStr cs)
            { mode := .inField, cur := cur, row := row, grid := g } =
          runCSV (escapeStr cs)
            { mode := .inField, cur := cur ++ ['"'], row := row, grid := g } := rfl
      rw [h1, h2, ih]
      simp
    · by_cases hb : c = '\\'
      · subst hb
        have h1 : escapeStr ('\\' :: cs) = '\\' :: '\\' :: escapeStr cs := by
          simp [escapeStr, escapeChar]
        have h2 : runCSV ('\\' :: '\\' :: escapeStr cs)
              { mode := .inField, cur := cur, row := row, grid := g } =
            runCSV (escapeStr cs)
              { mode := .inField, cur := cur ++ ['\\'], row := row, grid := g } := rfl
        rw [h1, h2, ih]
        simp
      · have h1 : escapeStr (c :: cs) = c :: escapeStr cs := by
          simp [escapeStr, escapeChar, hq, hb]
        have h2 : runCSV (c :: escapeStr cs)
              { mode := .inField, cur := cur, row := row, grid := g } =
            match csvStep { mode := .inField, cur := cur, row := row, grid := g } c with
            | some st2 => runCSV (escapeStr cs) st2
            | none => none := rfl
        have h3 : csvStep { mode := .inField, cur := cur, row := row, grid := g } c =
            some { mode := .inField, cur := cur ++ [c], row := row, grid := g } := by
          simp [csvStep, hq, hb]
        rw [h1, h2, h3]
        simp [ih]

theorem runCSV_openQuote (l : List Char) (cur : Cell) (rowAcc : Row) (g : Grid)
    (m : Mode) (hm : m = .recStart ∨ m = .afterComma) :
    runCSV ('"' :: l) { mode := m, cur := cur, row := rowAcc, grid := g } =
      runCSV l { mode := .inField, cur := cur, row := rowAcc, grid := g } := by
  rcases hm with hm | hm <;> subst hm <;> rfl

theorem runCSV_closeQuoteEnd (cur : Cell) (rowAcc : Row) (g : Grid) :
    runCSV ['"', '\r', '\n'] { mode := .inField, cur := cur, row := rowAcc, grid := g } =
      some { mode := .recStart, cur := [], row := [], grid := g ++ [rowAcc ++ [cur]] } := rfl

theorem runCSV_closeQuoteComma (l : List Char) (cur : Cell) (rowAcc : Row) (g : Grid) :
    runCSV ('"' :: ',' :: l) { mode := .inField, cur := cur, row := rowAcc, grid := g } =
      runCSV l { mode := .afterComma, cur := [], row := rowAcc ++ [cur], grid := g } := rfl

theorem runCSV_encodeRecord (fs : Row) (f : Cell) (m : Mode)
    (hm : m = .recStart ∨ m = .afterComma) (rowAcc : Row) (g : Grid) :
    runCSV (encodeRecord (f :: fs)) { mode := m, cur := [], row := rowAcc, grid := g } =
      some { mode := .recStart, cur := [], row := [], grid := g ++ [rowAcc ++ f :: fs] } := by
  induction fs generalizing f m rowAcc g with
  | nil =>
    have h1 : encodeRecord [f] = '"' :: (escapeStr f ++ ['"', '\r', '\n']) := by
      simp [encodeRecord, encodeField]
    rw [h1, runCSV_openQuote _ _ _ _ _ hm, runCSV_append, runCSV_escapeStr]
    simp [runCSV_closeQuoteEnd]
  | cons f2 fs2 ih =>
    have h1 : encodeRecord (f :: f2 :: fs2) =
        '"' :: (escapeStr f ++ ('"' :: ',' :: encodeRecord (f2 :: fs2))) := by
      simp [encodeRecord, encodeField]
    rw [h1, runCSV_openQuote _ _ _ _ _ hm, runCSV_append, runCSV_escapeStr]
    have h2 := ih f2 Mode.afterComma (Or.inr rfl) (rowAcc ++ [f]) g
    simp [runCSV_closeQuoteComma, h2]

theorem runCSV_writerows (g : Grid) (acc : Grid) :
    runCSV (writerows g) { mode := .recStart, cur := [], row := [], grid := acc } =
      some { mode := .recStart, cur := [], row := [], grid := acc ++ g } := by
  induction g generalizing acc with
  | nil => simp [writerows, runCSV]
  | cons r rs ih =>
    cases r with
    | nil =>
      have h1 : writerows ([] :: rs) = '\r' :: '\n' :: writerows rs := by
        simp [writerows, encodeRecord]
      have h2 : runCSV ('\r' :: '\n' :: writerows rs)
            { mode := .recStart, cur := [], row := [], grid := acc } =
          runCSV (writerows rs)
            { mode := .recStart, cur := [], row := [], grid := acc ++ [[]] } := rfl
      rw [h1, h2, ih]
      simp
    | cons f fs =>
      have h1 : writerows ((f :: fs) :: rs) = encodeRecord (f :: fs) ++ writerows rs := rfl
      rw [h1, runCSV_append, runCSV_encodeRecord fs f Mode.recStart (Or.inl rfl)]
      simp [ih]

/-- Re-parsing staged text with the same quote/escape rules recovers the
original grid. -/
theorem parseCSV_writerows (g : Grid) : parseCSV (writerows g) = some g := by
  unfold parseCSV
  rw [runCSV_writerows]
  simp

theorem pyReplaceHyphen_no_hyphen (s : String) : '-' ∉ (pyReplaceHyphen s).data := by
  intro h
  simp only [pyReplaceHyphen, List.mem_map] at h
  obtain ⟨c, _, hc⟩ := h
  by_cases h2 : c = '-'
  · rw [if_pos h2] at hc
    exact absurd hc (by decide)
  · rw [if_neg h2] at hc
    exact h2 hc

/-- Claim C3: staging serializes a grid with every field quoted, backslash
as the escape character, double quote as the quote character, one record
per row in original column order, no header row added; re-parsing the
staged text with the same quote/escape rules yields the original grid, as
on the example grid of the specification. -/
theorem claim_C3_staging_roundtrip :
    (∀ g : Grid, parseCSV (writerows g) = some g) ∧
    writerows exampleGrid = exampleStaged ∧
    parseCSV exampleStaged = some exampleGrid :=
  ⟨parseCSV_writerows, by decide, by decide⟩

/-- Claim C4: ensureTable replaces every hyphen with an underscore before
the remote lookup, so no hyphen reaches the remote table name; on sheet
`capacity-plan` with run timestamp `202401011200` the history-table request
name is `capacity-plan_202401011200` before normalization and
`capacity_plan_202401011200` after. -/
theorem claim_C4_table_name_normalization :
    (∀ tn : String, '-' ∉ (pyReplaceHyphen tn).data) ∧
    (∀ (env : Env) (ds tn : String), (get_bq_table env ds tn).2.head? =
      some (.getTable (ds ++ "." ++ pyReplaceHyphen tn))) ∧
    pyReplaceHyphen "capacity-plan" = "capacity_plan" ∧
    SHEET_NAME ++ "_" ++ "202401011200" = "capacity-plan_202401011200" ∧
    pyReplaceHyphen (SHEET_NAME ++ "_" ++ "202401011200") = "capacity_plan_202401011200" := by
  refine ⟨pyReplaceHyphen_no_hyphen, ?_, by decide, by decide, by decide⟩
  intro env ds tn
  rcases h : env.tableLookup (fullTableName ds tn) with _ | _ | _ <;>
    simp only [fullTableName] at h <;>
    simp [get_bq_table, fullTableName, h]

/-- Claim C9: the hyphen-to-underscore normalization is non-injective: the
distinct display names `a-b` and `a_b` resolve to the same remote table
name, and in a run over both documents the two primary truncate-and-replace
loads target that one table, the second overwriting the first. -/
theorem claim_C9_collision_overwrite :
    "a-b" ≠ "a_b" ∧
    pyReplaceHyphen "a-b" = pyReplaceHyphen "a_b" ∧
    envCollide.sharedFiles.map Sheet.name = ["a-b", "a_b"] ∧
    (sheets_to_bq envCollide false).2.filter (isTruncLoadInto "sheets_to_bq.a_b") =
      [.loadTable "sheets_to_bq.a_b" (generate_filepath "a-b.csv") load_job_config,
       .loadTable "sheets_to_bq.a_b" (generate_filepath "a_b.csv") load_job_config] :=
  ⟨by decide, by decide, by decide, by decide⟩

theorem check_creds_events (env : Env) :
    (check_creds env).2 = [] ∨ (check_creds env).2 = [.refreshToken] := by
  unfold check_creds
  cases htc : env.tokenCache with
  | none => simp
  | some v =>
    cases v with
    | none => simp
    | some c =>
      cases hv : c.valid with
      | true => simp [hv]
      | false =>
        cases he : c.expired with
        | false => simp [hv, he]
        | true =>
          cases hr : env.refresh c with
          | ok c2 => simp [hv, he, hr]
          | error e => simp [hv, he, hr]

theorem fetch_creds_events (env : Env) :
    (fetch_creds env).2 = [.getBlob] ∨
    (fetch_creds env).2 =
      [.getBlob, .downloadBlob (generate_filepath CREDENTIALS_FILENAME)] := by
  unfold fetch_creds get_credentials_json
  cases env.remoteBlob with
  | none => cases env.localKeyFile <;> simp
  | some k => simp

theorem acquire_creds_events_split (env : Env) :
    (acquire_creds env).2 = (check_creds env).2 ∨
    (acquire_creds env).2 = (check_creds env).2 ++ (fetch_creds env).2 := by
  unfold acquire_creds
  rcases hc : check_creds env with ⟨r, evs⟩
  rcases hf : fetch_creds env with ⟨r2, evs2⟩
  rcases r with e | ⟨_ | c⟩ <;> simp [hc, hf]

theorem acquire_creds_events (env : Env) (x : Event)
    (hx : x ∈ (acquire_creds env).2) :
    x = .refreshToken ∨ x = .getBlob ∨
      x = .downloadBlob (generate_filepath CREDENTIALS_FILENAME) := by
  have hmem : x ∈ (check_creds env).2 ∨ x ∈ (fetch_creds env).2 := by
    rcases acquire_creds_events_split env with h | h
    · rw [h] at hx
      exact Or.inl hx
    · rw [h] at hx
      exact List.mem_append.mp hx
  rcases hmem with hmem | hmem
  · rcases check_creds_events env with h | h <;> rw [h] at hmem
    · simp at hmem
    · simp at hmem
      simp [hmem]
  · rcases fetch_creds_events env with h | h <;> rw [h] at hmem
    · simp at hmem
      simp [hmem]
    · simp at hmem
      rcases hmem with hmem | hmem <;> simp [hmem]

theorem get_bq_dataset_events (env : Env) (dn : String) (x : Event)
    (hx : x ∈ (get_bq_dataset env dn).2) :
    x = .getDataset dn ∨ x = .createDataset dn := by
  rcases h : env.datasetLookup dn with _ | _ | _ <;>
    simp [get_bq_dataset, h] at hx <;> tauto

theorem get_bq_dataset_self_mem (env : Env) (dn : String) :
    Event.getDataset dn ∈ (get_bq_dataset env dn).2 := by
  rcases h : env.datasetLookup dn with _ | _ | _ <;> simp [get_bq_dataset, h]

theorem get_bq_dataset_some_eq (env : Env) (dn ds : String) (evs : List Event)
    (h : get_bq_dataset env dn = (some ds, evs)) : ds = dn := by
  rcases hl : env.datasetLookup dn with _ | _ | _ <;>
    simp [get_bq_dataset, hl] at h <;> tauto

theorem get_bq_dataset_count_self (env : Env) (dn : String) :
    (get_bq_dataset env dn).2.count (.getDataset dn) = 1 := by
  rcases h : env.datasetLookup dn with _ | _ | _ <;>
    simp [get_bq_dataset, h, List.count_cons]

theorem get_bq_dataset_count_other (env : Env) (dn name : String) (hne : name ≠ dn) :
    (get_bq_dataset env dn).2.count (.getDataset name) = 0 := by
  rw [List.count_eq_zero]
  intro hmem
  rcases get_bq_dataset_events env dn _ hmem with h | h
  · exact hne (by injection h)
  · exact absurd h (by simp)

theorem get_bq_dataset_no_readClock (env : Env) (dn : String) :
    Event.readClock ∉ (get_bq_dataset env dn).2 := by
  intro hmem
  rcases get_bq_dataset_events env dn _ hmem with h | h <;> simp at h

theorem get_bq_dataset_no_fetchValues (env : Env) (dn sheetId : String) :
    Event.fetchValues sheetId ∉ (get_bq_dataset env dn).2 := by
  intro hmem
  rcases get_bq_dataset_events env dn _ hmem with h | h <;> simp at h

theorem get_bq_table_events (env : Env) (dn tn : String) (x : Event)
    (hx : x ∈ (get_bq_table env dn tn).2) :
    x = .getTable (fullTableName dn tn) ∨ x = .createTable (fullTableName dn tn) := by
  rcases h : env.tableLookup (fullTableName dn tn) with _ | _ | _ <;>
    simp [get_bq_table, h] at hx <;> tauto

theorem get_bq_table_self_mem (env : Env) (dn tn : String) :
    Event.getTable (fullTableName dn tn) ∈ (get_bq_table env dn tn).2 := by
  rcases h : env.tableLookup (fullTableName dn tn) with _ | _ | _ <;>
    simp [get_bq_table, h]

theorem get_bq_table_some_eq (env : Env) (dn tn t : String) (evs : List Event)
    (h : get_bq_table env dn tn = (some t, evs)) : t = fullTableName dn tn := by
  rcases hl : env.tableLookup (fullTableName dn tn) with _ | _ | _ <;>
    simp [get_bq_table, hl] at h <;> tauto

theorem get_bq_table_count_getDataset (env : Env) (dn tn name : String) :
    (get_bq_table env dn tn).2.count (.getDataset name) = 0 := by
  rw [List.count_eq_zero]
  intro hmem
  rcases get_bq_table_events env dn tn _ hmem with h | h <;> simp at h

theorem get_bq_table_no_readClock (env : Env) (dn tn : String) :
    Event.readClock ∉ (get_bq_table env dn tn).2 := by
  intro hmem
  rcases get_bq_table_events env dn tn _ hmem with h | h <;> simp at h

theorem acquire_creds_count_getDataset (env : Env) (name : String) :
    (acquire_creds env).2.count (.getDataset name) = 0 := by
  rw [List.count_eq_zero]
  intro hmem
  rcases acquire_creds_events env _ hmem with h | h | h <;> simp at h

theorem acquire_creds_no_readClock (env : Env) :
    Event.readClock ∉ (acquire_creds env).2 := by
  intro hmem
  rcases acquire_creds_events env _ hmem with h | h | h <;> simp at h

theorem acquire_creds_no_fetchValues (env : Env) (sheetId : String) :
    Event.fetchValues sheetId ∉ (acquire_creds env).2 := by
  intro hmem
  rcases acquire_creds_events env _ hmem with h | h | h <;> simp at h

theorem fald_success (env : Env) (s : Sheet) (ts : String) (evs : List Event)
    (h : fetch_and_load_data env s ts = (evs, none)) :
    evs.count (.getDataset BQ_DATASET) = 1 ∧
    evs.count (.getDataset historyDatasetName) = 1 ∧
    Event.readClock ∉ evs ∧
    Event.getTable (fullTableName historyDatasetName (s.name ++ "_" ++ ts)) ∈ evs := by
  unfold fetch_and_load_data at h
  rcases h1 : get_bq_dataset env BQ_DATASET with ⟨d1, ev1⟩
  rw [h1] at h
  rcases d1 with _ | dsId
  · simp at h
  · simp only [] at h
    rcases h2 : get_bq_table env dsId s.name with ⟨t1, ev2⟩
    rw [h2] at h
    rcases t1 with _ | tbl
    · simp at h
    · simp only [] at h
      rcases h3 : get_bq_dataset env historyDatasetName with ⟨d2, ev4⟩
      rw [h3] at h
      rcases d2 with _ | hdsId
      · simp at h
      · simp only [] at h
        rcases h4 : get_bq_table env hdsId (s.name ++ "_" ++ ts) with ⟨t2, ev5⟩
        rw [h4] at h
        rcases t2 with _ | htbl
        · simp at h
        · simp only [] at h
          have hds : dsId = BQ_DATASET := get_bq_dataset_some_eq env _ _ _ h1
          subst hds
          have hhds : hdsId = historyDatasetName := get_bq_dataset_some_eq env _ _ _ h3
          subst hhds
          have hevs := congrArg Prod.fst h
          simp only [] at hevs
          subst hevs
          have hev1 : ev1 = (get_bq_dataset env BQ_DATASET).2 := by rw [h1]
          have hev2 : ev2 = (get_bq_table env BQ_DATASET s.name).2 := by rw [h2]
          have hev4 : ev4 = (get_bq_dataset env historyDatasetName).2 := by rw [h3]
          have hev5 : ev5 = (get_bq_table env historyDatasetName (s.name ++ "_" ++ ts)).2 := by
            rw [h4]
          have c1 : ev1.count (.getDataset BQ_DATASET) = 1 := by
            rw [hev1]; exact get_bq_dataset_count_self env BQ_DATASET
          have c2 : ev1.count (.getDataset historyDatasetName) = 0 := by
            rw [hev1]
            exact get_bq_dataset_count_other env BQ_DATASET historyDatasetName (by decide)
          have c3 : ev4.count (.getDataset historyDatasetName) = 1 := by
            rw [hev4]; exact get_bq_dataset_count_self env historyDatasetName
          have c4 : ev4.count (.getDataset BQ_DATASET) = 0 := by
            rw [hev4]
            exact get_bq_dataset_count_other env historyDatasetName BQ_DATASET (by decide)
          have c5 : ev2.count (.getDataset BQ_DATASET) = 0 := by
            rw [hev2]; exact get_bq_table_count_getDataset env BQ_DATASET s.name BQ_DATASET
          have c6 : ev2.count (.getDataset historyDatasetName) = 0 := by
            rw [hev2]
            exact get_bq_table_count_getDataset env BQ_DATASET s.name historyDatasetName
          have c7 : ev5.count (.getDataset BQ_DATASET) = 0 := by
            rw [hev5]
            exact get_bq_table_count_getDataset env historyDatasetName _ BQ_DATASET
          have c8 : ev5.count (.getDataset historyDatasetName) = 0 := by
            rw [hev5]
            exact get_bq_table_count_getDataset env historyDatasetName _ historyDatasetName
          have n1 : Event.readClock ∉ ev1 := by
            rw [hev1]; exact get_bq_dataset_no_readClock env BQ_DATASET
          have n2 : Event.readClock ∉ ev2 := by
            rw [hev2]; exact get_bq_table_no_readClock env BQ_DATASET s.name
          have n4 : Event.readClock ∉ ev4 := by
            rw [hev4]; exact get_bq_dataset_no_readClock env historyDatasetName
          have n5 : Event.readClock ∉ ev5 := by
            rw [hev5]; exact get_bq_table_no_readClock env historyDatasetName _
          have m5 : Event.getTable (fullTableName historyDatasetName (s.name ++ "_" ++ ts)) ∈ ev5 := by
            rw [hev5]; exact get_bq_table_self_mem env historyDatasetName _
          refine ⟨?_, ?_, ?_, ?_⟩
          · simp [List.count_append, List.count_cons, c1, c2, c3, c4, c5, c6, c7, c8]
          · simp [List.count_append, List.count_cons, c1, c2, c3, c4, c5, c6, c7, c8]
          · simp [List.mem_append, n1, n2, n4, n5]
          · simp [List.mem_append]
            tauto

theorem process_sheets_success (env : Env) (ss : List Sheet) (ts : String)
    (evs : List Event) (h : process_sheets env ss ts = (evs, none)) :
    evs.count (.getDataset BQ_DATASET) = ss.length ∧
    evs.count (.getDataset historyDatasetName) = ss.length ∧
    Event.readClock ∉ evs ∧
    (∀ s ∈ ss,
      Event.getTable (fullTableName historyDatasetName (s.name ++ "_" ++ ts)) ∈ evs) := by
  induction ss generalizing evs with
  | nil =>
    simp [process_sheets] at h
    subst h
    simp
  | cons s rest ih =>
    unfold process_sheets at h
    rcases hf : fetch_and_load_data env s ts with ⟨ev, fo⟩
    rw [hf] at h
    rcases fo with _ | f
    · simp only [] at h
      rcases hp : process_sheets env rest ts with ⟨ev2, f2⟩
      rw [hp] at h
      simp only [] at h
      have hevs := congrArg Prod.fst h
      have hf2 := congrArg Prod.snd h
      simp only [] at hevs hf2
      subst hf2
      subst hevs
      obtain ⟨a1, a2, a3, a4⟩ := fald_success env s ts ev hf
      obtain ⟨i1, i2, i3, i4⟩ := ih ev2 hp
      refine ⟨?_, ?_, ?_, ?_⟩
      · simp [List.count_append, a1, i1, Nat.add_comm]
      · simp [List.count_append, a2, i2, Nat.add_comm]
      · simp [List.mem_append, a3, i3]
      · intro s2 hs2
        rcases List.mem_cons.mp hs2 with hs2 | hs2
        · subst hs2
          exact List.mem_append.mpr (Or.inl a4)
        · exact List.mem_append.mpr (Or.inr (i4 s2 hs2))
    · simp at h

theorem sheets_to_bq_done_split (env : Env) (request : Bool) (msg : String)
    (evs : List Event) (h : sheets_to_bq env request = (.done msg, evs)) :
    ∃ evDocs evSave,
      process_sheets env env.sharedFiles (strftimeYmdHM env.now) = (evDocs, none) ∧
      (evSave = [] ∨ evSave = [.saveToken]) ∧
      evs = (acquire_creds env).2 ++ (get_bq_dataset env BQ_DATASET).2 ++
            (get_bq_dataset env historyDatasetName).2 ++
            [.readClock, .listDriveFiles] ++ evDocs ++ evSave := by
  unfold sheets_to_bq at h
  rcases hA : acquire_creds env with ⟨rA, evA⟩
  rw [hA] at h
  rcases rA with e | co
  · simp at h
  · rcases co with _ | c
    · cases request <;> simp at h
    · simp only [] at h
      rcases h1 : get_bq_dataset env BQ_DATASET with ⟨d1, ev1⟩
      rw [h1] at h
      simp only [] at h
      rcases h2 : get_bq_dataset env historyDatasetName with ⟨d2, ev2⟩
      rw [h2] at h
      simp only [] at h
      rcases hp : process_sheets env env.sharedFiles (strftimeYmdHM env.now) with ⟨evDocs, fo⟩
      rw [hp] at h
      rcases fo with _ | f
      · simp only [] at h
        have hevs := congrArg Prod.snd h
        simp only [] at hevs
        refine ⟨evDocs, if tokenTruthy c.token then [.saveToken] else [], ?_, ?_, ?_⟩
        · rfl
        · cases tokenTruthy c.token <;> simp
        · rw [← hevs]
      · simp at h

/-- Claim C1 counterexample: in a run over a single shared document, the
primary and history datasets are each ensured twice — once up front and
once again during the document's processing — refuting exactly-once per
run. -/
theorem claim_C1_counterexample :
    envOneDoc.sharedFiles.length = 1 ∧
    (sheets_to_bq envOneDoc false).1 = .done "DONE: imported all sheets" ∧
    (sheets_to_bq envOneDoc false).2.count (.getDataset BQ_DATASET) = 2 ∧
    (sheets_to_bq envOneDoc false).2.count (.getDataset historyDatasetName) = 2 :=
  ⟨rfl, by decide, by decide, by decide⟩

/-- Claim C1 (amended): in a successful run the primary and history
datasets are each ensured once before the single clock read that precedes
document enumeration, and then once more per document processed — in total
one plus the number of documents, not exactly once. -/
theorem claim_C1_amended_dataset_ensures (env : Env) (request : Bool) (msg : String)
    (evs : List Event) (h : sheets_to_bq env request = (.done msg, evs)) :
    ∃ pre post,
      evs = pre ++ .readClock :: post ∧
      pre.count (.getDataset BQ_DATASET) = 1 ∧
      pre.count (.getDataset historyDatasetName) = 1 ∧
      post.count (.getDataset BQ_DATASET) = env.sharedFiles.length ∧
      post.count (.getDataset historyDatasetName) = env.sharedFiles.length ∧
      evs.count (.getDataset BQ_DATASET) = 1 + env.sharedFiles.length ∧
      evs.count (.getDataset historyDatasetName) = 1 + env.sharedFiles.length := by
  obtain ⟨evDocs, evSave, hp, hsave, hevs⟩ := sheets_to_bq_done_split env request msg evs h
  obtain ⟨p1, p2, p3, p4⟩ := process_sheets_success env _ _ _ hp
  have s1 : evSave.count (.getDataset BQ_DATASET) = 0 := by
    rcases hsave with h2 | h2 <;> subst h2 <;> simp
  have s2 : evSave.count (.getDataset historyDatasetName) = 0 := by
    rcases hsave with h2 | h2 <;> subst h2 <;> simp
  have hne : BQ_DATASET ≠ historyDatasetName := by decide
  refine ⟨(acquire_creds env).2 ++ (get_bq_dataset env BQ_DATASET).2 ++
          (get_bq_dataset env historyDatasetName).2,
          .listDriveFiles :: (evDocs ++ evSave), ?_, ?_, ?_, ?_, ?_, ?_, ?_⟩
  · rw [hevs]
    simp
  · simp [List.count_append, acquire_creds_count_getDataset,
          get_bq_dataset_count_self, get_bq_dataset_count_other env historyDatasetName _ hne]
  · simp [List.count_append, acquire_creds_count_getDataset,
          get_bq_dataset_count_self,
          get_bq_dataset_count_other env BQ_DATASET _ (Ne.symm hne)]
  · simp [List.count_cons, List.count_append, p1, s1]
  · simp [List.count_cons, List.count_append, p2, s2]
  · rw [hevs]
    simp [List.count_append, List.count_cons, acquire_creds_count_getDataset,
          get_bq_dataset_count_self, p1, s1,
          get_bq_dataset_count_other env historyDatasetName _ hne, Nat.add_comm]
  · rw [hevs]
    simp [List.count_append, List.count_cons, acquire_creds_count_getDataset,
          get_bq_dataset_count_self, p2, s2,
          get_bq_dataset_count_other env BQ_DATASET _ (Ne.symm hne), Nat.add_comm]

/-- Witness for the amended claim C1 at a concrete one-document run. -/
theorem claim_C1_amended_witness :
    ∃ pre post,
      (sheets_to_bq envOneDoc false).2 = pre ++ Event.readClock :: post ∧
      pre.count (Event.getDataset BQ_DATASET) = 1 ∧
      pre.count (Event.getDataset historyDatasetName) = 1 ∧
      post.count (Event.getDataset BQ_DATASET) = envOneDoc.sharedFiles.length ∧
      post.count (Event.getDataset historyDatasetName) = envOneDoc.sharedFiles.length ∧
      (sheets_to_bq envOneDoc false).2.count (Event.getDataset BQ_DATASET) =
        1 + envOneDoc.sharedFiles.length ∧
      (sheets_to_bq envOneDoc false).2.count (Event.getDataset historyDatasetName) =
        1 + envOneDoc.sharedFiles.length :=
  claim_C1_amended_dataset_ensures envOneDoc false "DONE: imported all sheets" _ (by decide)

/-- Claim C7: the run timestamp is computed exactly once, at minute
granularity (the second does not influence it), after the dataset ensuring
and before document iteration, and every processed document's history-table
name uses that one timestamp. -/
theorem claim_C7_single_run_timestamp :
    (∀ t1 t2 : DateTime, t1.year = t2.year → t1.month = t2.month →
      t1.day = t2.day → t1.hour = t2.hour → t1.minute = t2.minute →
      strftimeYmdHM t1 = strftimeYmdHM t2) ∧
    (∀ (env : Env) (request : Bool) (msg : String) (evs : List Event),
      sheets_to_bq env request = (.done msg, evs) →
      evs.count .readClock = 1 ∧
      ∃ pre post, evs = pre ++ .readClock :: post ∧
        Event.getDataset BQ_DATASET ∈ pre ∧
        Event.getDataset historyDatasetName ∈ pre ∧
        (∀ sheetId, Event.fetchValues sheetId ∉ pre) ∧
        (∀ s ∈ env.sharedFiles,
          Event.getTable (fullTableName historyDatasetName
            (s.name ++ "_" ++ strftimeYmdHM env.now)) ∈ post)) := by
  constructor
  · intro t1 t2 hy hmo hd hh hmi
    simp [strftimeYmdHM, hy, hmo, hd, hh, hmi]
  · intro env request msg evs h
    obtain ⟨evDocs, evSave, hp, hsave, hevs⟩ := sheets_to_bq_done_split env request msg evs h
    obtain ⟨p1, p2, p3, p4⟩ := process_sheets_success env _ _ _ hp
    have a0 : (acquire_creds env).2.count Event.readClock = 0 :=
      List.count_eq_zero.mpr (acquire_creds_no_readClock env)
    have a1 : (get_bq_dataset env BQ_DATASET).2.count Event.readClock = 0 :=
      List.count_eq_zero.mpr (get_bq_dataset_no_readClock env _)
    have a2 : (get_bq_dataset env historyDatasetName).2.count Event.readClock = 0 :=
      List.count_eq_zero.mpr (get_bq_dataset_no_readClock env _)
    have a3 : evDocs.count Event.readClock = 0 := List.count_eq_zero.mpr p3
    have a4 : evSave.count Event.readClock = 0 := by
      rcases hsave with h2 | h2 <;> subst h2 <;> simp
    constructor
    · rw [hevs]
      simp [List.count_append, List.count_cons, a0, a1, a2, a3, a4]
    · refine ⟨(acquire_creds env).2 ++ (get_bq_dataset env BQ_DATASET).2 ++
          (get_bq_dataset env historyDatasetName).2,
          .listDriveFiles :: (evDocs ++ evSave), ?_, ?_, ?_, ?_, ?_⟩
      · rw [hevs]
        simp
      · exact List.mem_append.mpr
          (Or.inl (List.mem_append.mpr (Or.inr (get_bq_dataset_self_mem env BQ_DATASET))))
      · exact List.mem_append.mpr (Or.inr (get_bq_dataset_self_mem env historyDatasetName))
      · intro sheetId hmem
        rcases List.mem_append.mp hmem with hmem | hmem
        · rcases List.mem_append.mp hmem with hmem | hmem
          · exact acquire_creds_no_fetchValues env sheetId hmem
          · exact get_bq_dataset_no_fetchValues env BQ_DATASET sheetId hmem
        · exact get_bq_dataset_no_fetchValues env historyDatasetName sheetId hmem
      · intro s hs
        exact List.mem_cons_of_mem _ (List.mem_append.mpr (Or.inl (p4 s hs)))

/-- Witness for claim C7 at a concrete one-document run and a concrete pair
of clock readings differing only in the second. -/
theorem claim_C7_single_run_timestamp_witness :
    strftimeYmdHM { year := 2024, month := 1, day := 1, hour := 12, minute := 0, second := 0 } =
      strftimeYmdHM { year := 2024, month := 1, day := 1, hour := 12, minute := 0, second := 59 } ∧
    ((sheets_to_bq envOneDoc false).2.count Event.readClock = 1 ∧
      ∃ pre post, (sheets_to_bq envOneDoc false).2 = pre ++ Event.readClock :: post ∧
        Event.getDataset BQ_DATASET ∈ pre ∧
        Event.getDataset historyDatasetName ∈ pre ∧
        (∀ sheetId, Event.fetchValues sheetId ∉ pre) ∧
        (∀ s ∈ envOneDoc.sharedFiles,
          Event.getTable (fullTableName historyDatasetName
            (s.name ++ "_" ++ strftimeYmdHM envOneDoc.now)) ∈ post)) :=
  ⟨claim_C7_single_run_timestamp.1 _ _ rfl rfl rfl rfl rfl,
   claim_C7_single_run_timestamp.2 envOneDoc false "DONE: imported all sheets" _ (by decide)⟩

/-- Claim C2 counterexample: a token cache holding a deserialized credential
that is not valid (and not expired) does not trigger the remote fallback —
acquisition returns that credential unchanged and never contacts remote key
storage. -/
theorem claim_C2_counterexample :
    envInvalidTok.tokenCache =
      some (some { valid := false, expired := false, token := none }) ∧
    acquire_creds envInvalidTok =
      (.ok (some { valid := false, expired := false, token := none }), []) ∧
    Event.getBlob ∉ (acquire_creds envInvalidTok).2 :=
  ⟨rfl, rfl, by decide⟩

/-- Claim C2 (amended): acquisition falls back to the remote fetch exactly
when step (a) yields a null credential — the cache file is absent or
unpickles to a null value; the fallback contacts remote key storage and,
when a key file results from the download, constructs the credential from
it scoped to the four fixed permission scopes. -/
theorem claim_C2_amended_fallback (env : Env)
    (h : env.tokenCache = none ∨ env.tokenCache = some none) :
    acquire_creds env = (.ok (fetch_creds env).1, (fetch_creds env).2) ∧
    Event.getBlob ∈ (acquire_creds env).2 ∧
    (∀ k, env.remoteBlob = some k → (fetch_creds env).1 = some (env.fromKey k SCOPES)) := by
  have hchk : check_creds env = (.ok none, []) := by
    rcases h with h | h <;> simp [check_creds, h]
  have hacq : acquire_creds env = (.ok (fetch_creds env).1, (fetch_creds env).2) := by
    rcases hf : fetch_creds env with ⟨r, evs⟩
    simp [acquire_creds, hchk, hf]
  refine ⟨hacq, ?_, ?_⟩
  · rw [hacq]
    rcases hb : env.remoteBlob with _ | k
    · rcases hl : env.localKeyFile with _ | k2 <;>
        simp [fetch_creds, get_credentials_json, hb, hl]
    · simp [fetch_creds, get_credentials_json, hb]
  · intro k hk
    simp [fetch_creds, get_credentials_json, hk]

/-- Witness for the amended claim C2 at a concrete environment with no
token cache and a present remote key blob. -/
theorem claim_C2_amended_fallback_witness :
    acquire_creds envFallback = (.ok (fetch_creds envFallback).1, (fetch_creds envFallback).2) ∧
    Event.getBlob ∈ (acquire_creds envFallback).2 ∧
    (∀ k, envFallback.remoteBlob = some k →
      (fetch_creds envFallback).1 = some (envFallback.fromKey k SCOPES)) :=
  claim_C2_amended_fallback envFallback (Or.inl rfl)

/-- Claim C5: for both ensure operations, NotFound is recovered by creating
the missing resource and returning its handle, Forbidden is logged and
yields a null handle, and a successful lookup returns the handle — a null
handle arises exactly from Forbidden, so no other outcome branch exists. -/
theorem claim_C5_ensure_outcomes (env : Env) (name ds tn : String) :
    ((env.datasetLookup name = .notFound →
        get_bq_dataset env name = (some name, [.getDataset name, .createDataset name])) ∧
     (env.datasetLookup name = .forbidden →
        get_bq_dataset env name = (none, [.getDataset name])) ∧
     (env.datasetLookup name = .found →
        get_bq_dataset env name = (some name, [.getDataset name])) ∧
     ((get_bq_dataset env name).1 = none ↔ env.datasetLookup name = .forbidden)) ∧
    ((env.tableLookup (fullTableName ds tn) = .notFound →
        get_bq_table env ds tn =
          (some (fullTableName ds tn),
           [.getTable (fullTableName ds tn), .createTable (fullTableName ds tn)])) ∧
     (env.tableLookup (fullTableName ds tn) = .forbidden →
        get_bq_table env ds tn = (none, [.getTable (fullTableName ds tn)])) ∧
     (env.tableLookup (fullTableName ds tn) = .found →
        get_bq_table env ds tn =
          (some (fullTableName ds tn), [.getTable (fullTableName ds tn)])) ∧
     ((get_bq_table env ds tn).1 = none ↔
        env.tableLookup (fullTableName ds tn) = .forbidden)) := by
  constructor
  · rcases h : env.datasetLookup name <;> simp [get_bq_dataset, h]
  · rcases h : env.tableLookup (fullTableName ds tn) <;> simp [get_bq_table, h]

/-- Witness for claim C5 at concrete environments exercising the NotFound
and Forbidden branches. -/
theorem claim_C5_ensure_outcomes_witness :
    get_bq_dataset envNotFound "d" = (some "d", [.getDataset "d", .createDataset "d"]) ∧
    get_bq_dataset envForbidden "d" = (none, [.getDataset "d"]) ∧
    get_bq_table envNotFound "d" "t-1" =
      (some "d.t_1", [.getTable "d.t_1", .createTable "d.t_1"]) ∧
    get_bq_table envForbidden "d" "t-1" = (none, [.getTable "d.t_1"]) := by
  refine ⟨?_, ?_, ?_, ?_⟩
  · exact (claim_C5_ensure_outcomes envNotFound "d" "d" "t-1").1.1 rfl
  · exact (claim_C5_ensure_outcomes envForbidden "d" "d" "t-1").1.2.1 rfl
  · have h := (claim_C5_ensure_outcomes envNotFound "d" "d" "t-1").2.1 rfl
    rw [h]
    decide
  · have h := (claim_C5_ensure_outcomes envForbidden "d" "d" "t-1").2.2.1 rfl
    rw [h]
    decide

/-- Claim C6: with no token cache and no reachable key material, the run
aborts with the credential-failure signal — HTTP 500 when a request value
is present, a printed message and plain return when it is absent — and
performs zero document processing and zero warehouse operations: the only
event is the failed remote blob lookup. -/
theorem claim_C6_no_credentials_abort (env : Env) (request : Bool)
    (h1 : env.tokenCache = none) (h2 : env.remoteBlob = none)
    (h3 : env.localKeyFile = none) :
    sheets_to_bq env request = ((if request then .abort500 else .quitRun), [.getBlob]) ∧
    (∀ sheetId, Event.fetchValues sheetId ∉ (sheets_to_bq env request).2) ∧
    (∀ n, Event.getDataset n ∉ (sheets_to_bq env request).2) ∧
    (∀ t p c, Event.loadTable t p c ∉ (sheets_to_bq env request).2) := by
  have hacq : acquire_creds env = (.ok none, [.getBlob]) := by
    simp [acquire_creds, check_creds, fetch_creds, get_credentials_json, h1, h2, h3]
  have hrun : sheets_to_bq env request =
      ((if request then .abort500 else .quitRun), [.getBlob]) := by
    cases request <;> simp [sheets_to_bq, hacq]
  refine ⟨hrun, fun sid => ?_, fun n => ?_, fun t p c => ?_⟩ <;> rw [hrun] <;> simp

/-- Witness for claim C6 in both invocation modes at a concrete
environment. -/
theorem claim_C6_no_credentials_abort_witness :
    sheets_to_bq envNoCreds true = (.abort500, [Event.getBlob]) ∧
    sheets_to_bq envNoCreds false = (.quitRun, [Event.getBlob]) ∧
    Event.fetchValues "doc1" ∉ (sheets_to_bq envNoCreds true).2 ∧
    Event.getDataset BQ_DATASET ∉ (sheets_to_bq envNoCreds true).2 :=
  have h := claim_C6_no_credentials_abort envNoCreds true rfl rfl rfl
  have h2 := claim_C6_no_credentials_abort envNoCreds false rfl rfl rfl
  ⟨h.1, h2.1, h.2.1 "doc1", h.2.2.1 BQ_DATASET⟩

/-- Claim C8: a valid cached token is returned as-is by credential
acquisition, with no contact to remote key storage. -/
theorem claim_C8_valid_cached_token (env : Env) (c : Creds)
    (h1 : env.tokenCache = some (some c)) (h2 : c.valid = true) :
    acquire_creds env = (.ok (some c), []) ∧
    Event.getBlob ∉ (acquire_creds env).2 := by
  have hacq : acquire_creds env = (.ok (some c), []) := by
    simp [acquire_creds, check_creds, h1, h2]
  exact ⟨hacq, by rw [hacq]; simp⟩

/-- Witness for claim C8 at a concrete environment with a valid cached
token. -/
theorem claim_C8_valid_cached_token_witness :
    acquire_creds baseEnv =
      (.ok (some { valid := true, expired := false, token := some "tok" }), []) ∧
    Event.getBlob ∉ (acquire_creds baseEnv).2 :=
  claim_C8_valid_cached_token baseEnv _ rfl rfl

/-- Claim C10: a cached, expired, invalid credential whose in-place refresh
raises propagates the error uncaught — the run faults with the refresh
error, without attempting the service-account-key fallback and without the
credential-absence abort signal. -/
theorem claim_C10_refresh_error_propagates (env : Env) (c : Creds) (e : String)
    (request : Bool) (h1 : env.tokenCache = some (some c)) (h2 : c.valid = false)
    (h3 : c.expired = true) (h4 : env.refresh c = .error e) :
    sheets_to_bq env request = (.fault (.refreshError e), [.refreshToken]) ∧
    Event.getBlob ∉ (sheets_to_bq env request).2 ∧
    (sheets_to_bq env request).1 ≠ .abort500 ∧
    (sheets_to_bq env request).1 ≠ .quitRun := by
  have hchk : check_creds env = (.error e, [.refreshToken]) := by
    simp [check_creds, h1, h2, h3, h4]
  have hacq : acquire_creds env = (.error e, [.refreshToken]) := by
    simp [acquire_creds, hchk]
  have hrun : sheets_to_bq env request = (.fault (.refreshError e), [.refreshToken]) := by
    simp [sheets_to_bq, hacq]
  refine ⟨hrun, ?_, ?_, ?_⟩ <;> rw [hrun] <;> simp

/-- Witness for claim C10 at a concrete environment whose refresh raises. -/
theorem claim_C10_refresh_error_propagates_witness :
    sheets_to_bq envRefreshErr false =
      (.fault (.refreshError "invalid_grant: Token has been revoked"), [.refreshToken]) ∧
    Event.getBlob ∉ (sheets_to_bq envRefreshErr false).2 ∧
    (sheets_to_bq envRefreshErr false).1 ≠ .abort500 ∧
    (sheets_to_bq envRefreshErr false).1 ≠ .quitRun :=
  claim_C10_refresh_error_propagates envRefreshErr _ _ false rfl rfl rfl rfl

end SheetsToBq
